import Mathlib

/-!
Shallow embedding of the Express server in src/server/index.js of the
tracking-chatters repository: the message write path (POST api/threads),
the thread state aggregator (updateThreadCalculations), the automatic
webhook dispatch (sendThreadToWebhook) and the external score update
endpoint (PUT api/threads/:id).  Timestamps are integers, SQL INTERVAL
averages are rationals, nullable columns are Option, and the per-request
database transaction is a pure state transformer returning Except, where
an error result models a rolled-back transaction.
-/

namespace TrackingChatters

/-- A row of the append-only messages table, restricted to the columns
the server logic reads: the direction string stored in the type column,
the text and the insertion timestamp. -/
structure Message where
  type : String
  message : String
  date : ℤ
deriving DecidableEq

/-- A row of the threads summary table.  The five score columns are
declared INTEGER in the schema, so they hold integers when set. -/
structure Thread where
  thread_id : String
  operator : String
  model : String
  converted : Option String
  last_message : Option ℤ
  avg_response_time : Option ℚ
  responded : Option String
  acknowledgment_score : Option ℤ
  affection_score : Option ℤ
  personalization_score : Option ℤ
  sales_ability : Option ℤ
  girl_roleplay_skill : Option ℤ
deriving DecidableEq

/-- The database state restricted to one thread id: the threads row for
it, if any, and its messages in insertion order. -/
structure ThreadState where
  thread : Option Thread
  msgs : List Message
deriving DecidableEq

/-- The request body of POST api/threads. -/
structure PostInput where
  operator : String
  thread_id : String
  model : String
  type : String
  message : String
  converted : Option String
deriving DecidableEq

/-- Errors surfaced by the endpoints: 400, 404 and 500 responses. -/
inductive ApiError where
  | badRequest (msg : String)
  | notFound (msg : String)
  | serverError (msg : String)
deriving DecidableEq

/-- JS truthiness normalisation of the optional converted body field:
the handler stores converted or null, so a missing or empty string
becomes null. -/
def normConverted (c : Option String) : Option String :=
  match c with
  | some s => if s = "" then none else some s
  | none => none

/-- The required-field check of POST api/threads: every required field
must be present and non-empty (JS falsiness on strings). -/
def requiredPresent (i : PostInput) : Bool :=
  i.operator != "" && i.thread_id != "" && i.model != "" &&
    i.type != "" && i.message != ""

/-- The thread upsert of POST api/threads: INSERT with NULL AI scores,
ON CONFLICT keep operator and model, set converted only when the new
value is Yes, and clear the three AI score columns. -/
def upsertThread (row : Option Thread) (i : PostInput) : Thread :=
  match row with
  | none =>
      { thread_id := i.thread_id
        operator := i.operator
        model := i.model
        converted := normConverted i.converted
        last_message := none
        avg_response_time := none
        responded := none
        acknowledgment_score := none
        affection_score := none
        personalization_score := none
        sales_ability := none
        girl_roleplay_skill := none }
  | some th =>
      { th with
        converted :=
          if normConverted i.converted = some "Yes" then some "Yes"
          else th.converted
        acknowledgment_score := none
        affection_score := none
        personalization_score := none }

/-- The message row inserted by POST api/threads; its date column takes
the current timestamp. -/
def mkMessage (i : PostInput) (now : ℤ) : Message :=
  { type := i.type, message := i.message, date := now }

/-- COUNT of the messages of the thread whose type equals t. -/
def countType (msgs : List Message) (t : String) : ℕ :=
  (msgs.filter (fun m => m.type == t)).length

/-- ORDER BY date DESC LIMIT 1: the message with the maximal date, the
later list entry winning ties. -/
def lastMessage : List Message → Option Message
  | [] => none
  | a :: rest =>
      match lastMessage rest with
      | none => some a
      | some b => if a.date ≤ b.date then some b else some a

/-- The NOT EXISTS subquery of the average response time CTE: is there
an incoming message strictly between the two dates. -/
def betweenIncoming (msgs : List Message) (d1 d2 : ℤ) : Bool :=
  msgs.any fun m3 =>
    m3.type == "incoming" && decide (d1 < m3.date) && decide (m3.date < d2)

/-- The join condition of the response_times CTE: m1 incoming, m2
outgoing, m2 after m1, and no incoming message strictly between. -/
def pairCond (msgs : List Message) (m1 m2 : Message) : Bool :=
  m1.type == "incoming" && m2.type == "outgoing" &&
    decide (m1.date < m2.date) && !(betweenIncoming msgs m1.date m2.date)

/-- All response durations produced by the self-join of the
response_times CTE, one entry per joined row. -/
def responseTimes (msgs : List Message) : List ℤ :=
  msgs.flatMap fun m1 =>
    msgs.filterMap fun m2 =>
      if pairCond msgs m1 m2 then some (m2.date - m1.date) else none

/-- SELECT AVG(response_time): NULL over the empty set, otherwise the
mean of the joined rows. -/
def avgResponseTime (msgs : List Message) : Option ℚ :=
  match responseTimes msgs with
  | [] => none
  | ts@(_ :: _) =>
      some (((ts.map fun d => (d : ℚ)).sum) / (ts.length : ℚ))

/-- The CASE expression shared by the responded calculation of
updateThreadCalculations and the live recalculation in GET api/threads:
incoming gives Yes, outgoing older than three hours gives No, anything
else gives No. -/
def respondedCase (ty : String) (d now : ℤ) : String :=
  if ty == "incoming" then "Yes"
  else if ty == "outgoing" && decide (now - d > 3 * 3600) then "No"
  else "No"

/-- The responded recalculation of updateThreadCalculations: the CASE
expression on the most recent message, defaulting to No when the thread
has no messages. -/
def respondedCalc (msgs : List Message) (now : ℤ) : String :=
  match lastMessage msgs with
  | none => "No"
  | some m => respondedCase m.type m.date now

/-- updateThreadCalculations: set last_message to MAX(date), recompute
avg_response_time from the response_times CTE and responded from the
most recent message. -/
def updateThreadCalculations (th : Thread) (msgs : List Message) (now : ℤ) : Thread :=
  { th with
    last_message := (lastMessage msgs).map Message.date
    avg_response_time := avgResponseTime msgs
    responded := some (respondedCalc msgs now) }

/-- One call of POST api/threads against the state of its thread.  The
dbFail flag models a failing database step inside the transaction; any
error is a rolled-back transaction, so no new state is produced.  On
success the returned flag records whether the automatic webhook dispatch
was scheduled: at least three outgoing and at least three incoming
messages counted inside the transaction after the insert. -/
def recordMessage (s : ThreadState) (i : PostInput) (now : ℤ) (dbFail : Bool) :
    Except ApiError (ThreadState × Bool) :=
  if !(requiredPresent i) then
    .error (.badRequest "Missing required fields")
  else if dbFail then
    .error (.serverError "Failed to create thread")
  else
    let msgs := s.msgs ++ [mkMessage i now]
    let th := updateThreadCalculations (upsertThread s.thread i) msgs now
    let disp := decide (3 ≤ countType msgs "outgoing") &&
      decide (3 ≤ countType msgs "incoming")
    .ok ({ thread := some th, msgs := msgs }, disp)

/-- The JSON object sent to the n8n webhook by sendThreadToWebhook. -/
structure WebhookPayload where
  thread_id : String
  operator : String
  model : String
  messages : List Message
  converted : Option String
  last_message : Option ℤ
  avg_response_time : Option ℤ
  responded : Option String
deriving DecidableEq

/-- Insert a message into a date-ascending list, after entries with the
same date. -/
def insertByDate (m : Message) : List Message → List Message
  | [] => [m]
  | a :: rest =>
      if m.date < a.date then m :: a :: rest else a :: insertByDate m rest

/-- ORDER BY date ASC over the fetched messages. -/
def sortByDate : List Message → List Message
  | [] => []
  | m :: rest => insertByDate m (sortByDate rest)

/-- The payload built by sendThreadToWebhook from the threads row and
the chronologically ordered messages; avg_response_time is divided by
1000 and rounded, as in the source. -/
def mkPayload (th : Thread) (ms : List Message) : WebhookPayload :=
  { thread_id := th.thread_id
    operator := th.operator
    model := th.model
    messages := ms
    converted := th.converted
    last_message := th.last_message
    avg_response_time := th.avg_response_time.map fun q => round (q / 1000)
    responded := th.responded }

/-- sendThreadToWebhook: look up the threads row, fetch the messages
ordered by date ascending, and POST the payload wrapped in a
single-element array.  The result is the delivered request body. -/
def sendThreadToWebhook (s : ThreadState) : Except ApiError (List WebhookPayload) :=
  match s.thread with
  | none => .error (.notFound "Thread not found")
  | some th => .ok [mkPayload th (sortByDate s.msgs)]

/-- A JSON value supplied for one score field of PUT api/threads/:id:
null, a number, or some other non-number value. -/
inductive ScoreVal where
  | null
  | num (q : ℚ)
  | other
deriving DecidableEq

/-- The request body of PUT api/threads/:id; none means the field is
absent (undefined). -/
structure ScoreInput where
  acknowledgment_score : Option ScoreVal
  affection_score : Option ScoreVal
  personalization_score : Option ScoreVal
  sales_ability : Option ScoreVal
  girl_roleplay_skill : Option ScoreVal
deriving DecidableEq

/-- The per-field validation of PUT api/threads/:id: a provided value
that is neither null nor undefined must be a number between 0 and 100. -/
def scoreInvalid : Option ScoreVal → Bool
  | none => false
  | some .null => false
  | some (.num q) => decide (q < 0) || decide (100 < q)
  | some .other => true

/-- Validation over the five score fields of the request body. -/
def scoresInvalid (inp : ScoreInput) : Bool :=
  scoreInvalid inp.acknowledgment_score || scoreInvalid inp.affection_score ||
    scoreInvalid inp.personalization_score || scoreInvalid inp.sales_ability ||
    scoreInvalid inp.girl_roleplay_skill

/-- Whether a provided score survives the handler validation but breaks
the UPDATE: the score columns are INTEGER, the driver sends the number
as text, and a non-integer number fails the int4 coercion of the bound
parameter, aborting the statement. -/
def scoreNonInt : Option ScoreVal → Bool
  | some (.num q) => decide (q.den ≠ 1)
  | _ => false

/-- Whether some provided score field makes the UPDATE fail at the
INTEGER coercion. -/
def scoresNonInt (inp : ScoreInput) : Bool :=
  scoreNonInt inp.acknowledgment_score || scoreNonInt inp.affection_score ||
    scoreNonInt inp.personalization_score || scoreNonInt inp.sales_ability ||
    scoreNonInt inp.girl_roleplay_skill

/-- COALESCE of a score parameter with the existing INTEGER column:
null and undefined both become SQL NULL, so the old value is kept; an
integer number replaces it. -/
def coalesceScore (v : Option ScoreVal) (old : Option ℤ) : Option ℤ :=
  match v with
  | some (.num q) => some q.num
  | _ => old

/-- Does the UPDATE of PUT api/threads/:id match a row. -/
def threadExists (s : ThreadState) (tid : String) : Bool :=
  match s.thread with
  | some th => th.thread_id == tid
  | none => false

/-- One call of PUT api/threads/:id: reject a missing id, validate the
provided scores, then run the COALESCE UPDATE on the five INTEGER score
columns.  A non-integer number passes the handler validation but fails
the int4 parameter coercion before any row is matched, so the UPDATE
errors and the handler answers with a server error; otherwise the
matching row is updated, or not found is reported. -/
def applyScores (s : ThreadState) (tid : String) (inp : ScoreInput) :
    Except ApiError ThreadState :=
  if tid == "" then .error (.badRequest "Missing thread ID")
  else if scoresInvalid inp then .error (.badRequest "score out of range")
  else if scoresNonInt inp then
    .error (.serverError "invalid input syntax for type integer")
  else
    match s.thread with
    | some th =>
        if th.thread_id == tid then
          .ok { s with
            thread := some { th with
              acknowledgment_score :=
                coalesceScore inp.acknowledgment_score th.acknowledgment_score
              affection_score :=
                coalesceScore inp.affection_score th.affection_score
              personalization_score :=
                coalesceScore inp.personalization_score th.personalization_score
              sales_ability :=
                coalesceScore inp.sales_ability th.sales_ability
              girl_roleplay_skill :=
                coalesceScore inp.girl_roleplay_skill th.girl_roleplay_skill } }
        else .error (.notFound "Thread not found")
    | none => .error (.notFound "Thread not found")

/-- An operation against the state of one thread: a message write, an
external score update, or a pure read (any of the GET endpoints). -/
inductive Op where
  | write (i : PostInput) (now : ℤ) (dbFail : Bool)
  | score (tid : String) (inp : ScoreInput)
  | read

/-- Apply one operation; a rolled-back transaction leaves the state
unchanged. -/
def applyOp (s : ThreadState) : Op → ThreadState
  | .write i now f =>
      match recordMessage s i now f with
      | .ok p => p.1
      | .error _ => s
  | .score tid inp =>
      match applyScores s tid inp with
      | .ok s' => s'
      | .error _ => s
  | .read => s

/-- Apply a sequence of operations. -/
def runOps (s : ThreadState) (ops : List Op) : ThreadState :=
  ops.foldl applyOp s

/-- The state of a thread no request has touched yet. -/
def emptyState : ThreadState :=
  { thread := none, msgs := [] }

/-- The state after one POST api/threads call at the given time, the
state being kept on a rolled-back transaction. -/
def applyRecord (s : ThreadState) (c : PostInput × ℤ) : ThreadState :=
  applyOp s (.write c.1 c.2 false)

/-- The state after a sequence of POST api/threads calls on a fresh
thread. -/
def runRecords (calls : List (PostInput × ℤ)) : ThreadState :=
  calls.foldl applyRecord emptyState

/-- Whether one POST api/threads call schedules the webhook dispatch. -/
def dispatchFlag (s : ThreadState) (c : PostInput × ℤ) : Bool :=
  match recordMessage s c.1 c.2 false with
  | .ok p => p.2
  | .error _ => false

/-- Run a sequence of POST api/threads calls recording, per call,
whether the webhook dispatch was scheduled. -/
def runTrace (calls : List (PostInput × ℤ)) : ThreadState × List Bool :=
  calls.foldl
    (fun acc c => (applyRecord acc.1 c, acc.2 ++ [dispatchFlag acc.1 c]))
    (emptyState, [])

/-- The state seen by later requests after one PUT api/threads/:id call;
an error response leaves the state unchanged. -/
def scoresStep (s : ThreadState) (tid : String) (inp : ScoreInput) : ThreadState :=
  match applyScores s tid inp with
  | .ok s' => s'
  | .error _ => s

/-- Boolean success of an endpoint result. -/
def okB {ε α : Type} : Except ε α → Bool
  | .ok _ => true
  | .error _ => false

/-- Boolean failure of an endpoint result. -/
def errB {ε α : Type} : Except ε α → Bool
  | .ok _ => false
  | .error _ => true

/-- Spec-side definition, following the claimed pairing word for word:
walking the messages in chronological order, each outgoing message is
paired with the nearest preceding unanswered incoming message, so each
message belongs to at most one pair.  The stack holds the dates of the
unanswered incoming messages, most recent first.  This definition exists
only to be compared with avgResponseTime, which is translated from the
source. -/
def specPairTimes : List Message → List ℤ → List ℤ
  | [], _ => []
  | m :: rest, stack =>
      if m.type == "incoming" then specPairTimes rest (m.date :: stack)
      else if m.type == "outgoing" then
        match stack with
        | [] => specPairTimes rest []
        | d :: ds => (m.date - d) :: specPairTimes rest ds
      else specPairTimes rest stack

/-- Spec-side average, following the claim's words: the mean of the
durations of the completed pairs of specPairTimes, over the messages in
chronological order. -/
def specAvgResponseTime (msgs : List Message) : Option ℚ :=
  match specPairTimes (sortByDate msgs) [] with
  | [] => none
  | ts@(_ :: _) =>
      some (((ts.map fun d => (d : ℚ)).sum) / (ts.length : ℚ))

/-! Concrete fixtures used by the closed theorems below. -/

/-- A well-formed incoming write request. -/
def inMsg : PostInput :=
  { operator := "op", thread_id := "t1", model := "m", type := "incoming",
    message := "hello", converted := none }

/-- A well-formed outgoing write request. -/
def outMsg : PostInput :=
  { operator := "op", thread_id := "t1", model := "m", type := "outgoing",
    message := "reply", converted := none }

/-- Two writes, the second outgoing. -/
def c1calls : List (PostInput × ℤ) := [(inMsg, 1), (outMsg, 2)]

/-- One incoming message answered by two consecutive outgoing ones. -/
def c2calls : List (PostInput × ℤ) :=
  [(inMsg, 0), (outMsg, 10), (outMsg, 20)]

/-- The state after the first of the c2calls writes. -/
def c2state1 : ThreadState := runRecords [(inMsg, 0)]

/-- The state produced by the second c2calls write. -/
def c2s2 : ThreadState := applyRecord c2state1 (outMsg, 10)

/-- The dispatch decision of the second c2calls write. -/
def c2d2 : Bool := dispatchFlag c2state1 (outMsg, 10)

/-- An alternating conversation of five messages. -/
def c3calls5 : List (PostInput × ℤ) :=
  [(inMsg, 1), (outMsg, 2), (inMsg, 3), (outMsg, 4), (inMsg, 5)]

/-- The state after c3calls5. -/
def c3state5 : ThreadState := runRecords c3calls5

/-- The state produced by the sixth write of the alternating scenario. -/
def c3s6 : ThreadState := applyRecord c3state5 (outMsg, 6)

/-- The dispatch decision of the sixth write of the scenario. -/
def c3d6 : Bool := dispatchFlag c3state5 (outMsg, 6)

/-- Seven writes: three of each direction, then one more incoming. -/
def c4calls : List (PostInput × ℤ) :=
  [(inMsg, 1), (outMsg, 2), (inMsg, 3), (outMsg, 4), (inMsg, 5), (outMsg, 6),
    (inMsg, 7)]

/-- The first six writes of c4calls, ending exactly at the 3-and-3
threshold. -/
def c4first6 : List (PostInput × ℤ) :=
  [(inMsg, 1), (outMsg, 2), (inMsg, 3), (outMsg, 4), (inMsg, 5), (outMsg, 6)]

/-- The state after c4first6. -/
def c4state6 : ThreadState := runRecords c4first6

/-- The state produced by the seventh write. -/
def c4s7 : ThreadState := applyRecord c4state6 (inMsg, 7)

/-- The dispatch decision of the seventh write. -/
def c4d7 : Bool := dispatchFlag c4state6 (inMsg, 7)

/-- The write-path results on a fresh thread, used as witnesses. -/
def w5s : ThreadState := applyRecord emptyState (inMsg, 1)

/-- Dispatch decision of the first write on a fresh thread. -/
def w5d : Bool := dispatchFlag emptyState (inMsg, 1)

/-- A bare threads row as first inserted for thread t1. -/
def baseThread : Thread :=
  { thread_id := "t1", operator := "op", model := "m", converted := none,
    last_message := none, avg_response_time := none, responded := none,
    acknowledgment_score := none, affection_score := none,
    personalization_score := none, sales_ability := none,
    girl_roleplay_skill := none }

/-- A state holding the bare t1 row and no messages. -/
def scoredState : ThreadState := { thread := some baseThread, msgs := [] }

/-- A score-update body with every field absent. -/
def noScores : ScoreInput :=
  { acknowledgment_score := none, affection_score := none,
    personalization_score := none, sales_ability := none,
    girl_roleplay_skill := none }

/-- A score-update body carrying the non-integer number 85.5. -/
def halfScore : ScoreInput :=
  { noScores with acknowledgment_score := some (.num (171 / 2)) }

/-- The t1 row with acknowledgment_score 50. -/
def thread50 : Thread := { baseThread with acknowledgment_score := some 50 }

/-- A state holding thread50. -/
def state50 : ThreadState := { thread := some thread50, msgs := [] }

/-- A score-update body that provides an explicit null for
acknowledgment_score. -/
def nullAck : ScoreInput := { noScores with acknowledgment_score := some .null }

/-- A score-update body setting acknowledgment_score to 85. -/
def inp85 : ScoreInput :=
  { noScores with acknowledgment_score := some (.num 85) }

/-- The t1 row already marked converted. -/
def threadYes : Thread := { baseThread with converted := some "Yes" }

/-- A state holding threadYes. -/
def stateYes : ThreadState := { thread := some threadYes, msgs := [] }

/-- A mixed sequence of operations against threadYes. -/
def opsYes : List Op :=
  [.write outMsg 1 false, .score "t1" inp85, .read, .write inMsg 2 false]

/-- Invariant tying the stored responded field to the direction of the
last recorded message. -/
def RespInvariant (s : ThreadState) : Prop :=
  (s.msgs = [] → s.thread = none) ∧
  ∀ lm, s.msgs.getLast? = some lm →
    ∃ th, s.thread = some th ∧
      th.responded = some (if lm.type == "incoming" then "Yes" else "No")

/-- What one COALESCE-updated INTEGER score column must satisfy: a
provided number overwrites with its integer value, a provided null or
an absent field keeps the old value. -/
def ScoreFieldSpec (v : Option ScoreVal) (old res : Option ℤ) : Prop :=
  (∀ q, v = some (.num q) → res = some q.num) ∧
  ((v = some .null ∨ v = none) → res = old)

/-! Helper lemmas about the write path. -/

theorem recordMessage_error_cases (s : ThreadState) (i : PostInput) (now : ℤ)
    (f : Bool) :
    errB (recordMessage s i now f) = (!requiredPresent i || f) := by
  by_cases h1 : requiredPresent i = true
  · by_cases h2 : f = true
    · simp [recordMessage, errB, h1, h2]
    · simp only [Bool.not_eq_true] at h2
      simp [recordMessage, errB, h1, h2]
  · simp only [Bool.not_eq_true] at h1
    simp [recordMessage, errB, h1]

theorem recordMessage_ok_spec (s : ThreadState) (i : PostInput) (now : ℤ)
    (f : Bool) (s' : ThreadState) (d : Bool)
    (h : recordMessage s i now f = .ok (s', d)) :
    requiredPresent i = true ∧ f = false ∧
      s'.msgs = s.msgs ++ [mkMessage i now] ∧
      s'.thread = some (updateThreadCalculations (upsertThread s.thread i)
        (s.msgs ++ [mkMessage i now]) now) ∧
      d = (decide (3 ≤ countType (s.msgs ++ [mkMessage i now]) "outgoing") &&
        decide (3 ≤ countType (s.msgs ++ [mkMessage i now]) "incoming")) := by
  by_cases h1 : requiredPresent i = true
  · by_cases h2 : f = true
    · simp [recordMessage, h1, h2] at h
    · simp only [Bool.not_eq_true] at h2
      subst h2
      simp only [recordMessage, h1, Bool.not_true, Bool.false_eq_true,
        if_false, Except.ok.injEq, Prod.mk.injEq] at h
      obtain ⟨hs, hd⟩ := h
      subst hs
      exact ⟨h1, rfl, rfl, rfl, hd.symm⟩
  · simp only [Bool.not_eq_true] at h1
    simp [recordMessage, h1] at h

theorem respondedCase_spec (ty : String) (d now : ℤ) :
    respondedCase ty d now = if ty == "incoming" then "Yes" else "No" := by
  by_cases h : (ty == "incoming") = true
  · simp [respondedCase, h]
  · simp only [Bool.not_eq_true] at h
    simp [respondedCase, h]

theorem lastMessage_concat (msgs : List Message) (m : Message)
    (h : ∀ x ∈ msgs, x.date < m.date) :
    lastMessage (msgs ++ [m]) = some m := by
  induction msgs with
  | nil => rfl
  | cons a rest ih =>
      have ha : a.date < m.date := h a (by simp)
      have htail : lastMessage (rest ++ [m]) = some m :=
        ih (fun x hx => h x (by simp [hx]))
      have hstep : lastMessage ((a :: rest) ++ [m]) =
          match lastMessage (rest ++ [m]) with
          | none => some a
          | some b => if a.date ≤ b.date then some b else some a := rfl
      rw [hstep, htail]
      show (if a.date ≤ m.date then some m else some a) = some m
      rw [if_pos (le_of_lt ha)]

theorem countType_concat (msgs : List Message) (m : Message) (t : String) :
    countType (msgs ++ [m]) t =
      countType msgs t + (if m.type == t then 1 else 0) := by
  by_cases h : (m.type == t) = true
  · simp [countType, h]
  · simp only [Bool.not_eq_true] at h
    simp [countType, h]

theorem countType_le_concat (msgs : List Message) (m : Message) (t : String) :
    countType msgs t ≤ countType (msgs ++ [m]) t := by
  rw [countType_concat]
  omega

/-! C5: every successful write clears the three AI score columns. -/

/-- C5: every successful recordMessage call leaves the target thread row
with acknowledgment_score, affection_score and personalization_score all
null, whether the row was freshly inserted or already existed. -/
theorem recordMessage_resets_ai_scores (s : ThreadState) (i : PostInput)
    (now : ℤ) (f : Bool) (s' : ThreadState) (d : Bool)
    (h : recordMessage s i now f = .ok (s', d)) :
    ∃ th, s'.thread = some th ∧
      th.acknowledgment_score = none ∧
      th.affection_score = none ∧
      th.personalization_score = none := by
  obtain ⟨-, -, -, hth, -⟩ := recordMessage_ok_spec s i now f s' d h
  refine ⟨_, hth, ?_, ?_, ?_⟩ <;>
    cases s.thread <;>
      simp [updateThreadCalculations, upsertThread]

/-! C10: the write path never touches the two manual score columns. -/

/-- C10: a successful recordMessage call on an existing thread row keeps
sales_ability and girl_roleplay_skill at their prior values while
nulling only the three AI score fields. -/
theorem recordMessage_preserves_manual_scores (s : ThreadState)
    (i : PostInput) (now : ℤ) (f : Bool) (s' : ThreadState) (d : Bool)
    (th : Thread) (hs : s.thread = some th)
    (h : recordMessage s i now f = .ok (s', d)) :
    ∃ th', s'.thread = some th' ∧
      th'.sales_ability = th.sales_ability ∧
      th'.girl_roleplay_skill = th.girl_roleplay_skill ∧
      th'.acknowledgment_score = none ∧
      th'.affection_score = none ∧
      th'.personalization_score = none := by
  obtain ⟨-, -, -, hth, -⟩ := recordMessage_ok_spec s i now f s' d h
  rw [hs] at hth
  exact ⟨_, hth, by simp [updateThreadCalculations, upsertThread]⟩

/-! C6: error conditions of the write path.  The handler validates only
presence of the five fields; the direction string is stored as given,
with no membership check against the two-value enum. -/

/-- C6 counterexample: a request whose direction is the string x, which
is neither incoming nor outgoing, is accepted by the write path, so the
claimed if-and-only-if error condition listing an invalid direction as
an error case fails. -/
theorem recordMessage_accepts_bad_direction :
    okB (recordMessage emptyState
      { operator := "op", thread_id := "t1", model := "m", type := "x",
        message := "hi", converted := none } 5 false) = true ∧
    "x" ≠ "incoming" ∧ "x" ≠ "outgoing" := by
  refine ⟨by rfl, by decide, by decide⟩

/-- C6 amended: the write path returns an error exactly when a required
field is missing or empty or a database step of the transaction fails;
the direction value is not validated.  Whenever an error is returned the
transaction is rolled back, so the observable state is unchanged: no
message is appended and no thread field changes. -/
theorem recordMessage_error_iff (s : ThreadState) (i : PostInput)
    (now : ℤ) (f : Bool) :
    (errB (recordMessage s i now f) = true ↔
      requiredPresent i = false ∨ f = true) ∧
    (∀ e, recordMessage s i now f = .error e →
      applyOp s (.write i now f) = s) := by
  constructor
  · rw [recordMessage_error_cases]
    by_cases h1 : requiredPresent i = true <;> simp [h1]
  · intro e he
    simp [applyOp, he]

/-! Behaviour of one write step as seen by later requests. -/

theorem applyRecord_ok (s : ThreadState) (c : PostInput × ℤ)
    (p : ThreadState × Bool) (h : recordMessage s c.1 c.2 false = .ok p) :
    applyRecord s c = p.1 := by
  simp only [applyRecord, applyOp]
  rw [h]

theorem applyRecord_err (s : ThreadState) (c : PostInput × ℤ) (e : ApiError)
    (h : recordMessage s c.1 c.2 false = .error e) :
    applyRecord s c = s := by
  simp only [applyRecord, applyOp]
  rw [h]

theorem applyRecord_msgs_sub (s : ThreadState) (c : PostInput × ℤ) :
    ∀ m ∈ (applyRecord s c).msgs, m ∈ s.msgs ∨ m = mkMessage c.1 c.2 := by
  cases h : recordMessage s c.1 c.2 false with
  | error e =>
      rw [applyRecord_err s c e h]
      exact fun m hm => .inl hm
  | ok p =>
      rw [applyRecord_ok s c p h]
      obtain ⟨-, -, hmsgs, -, -⟩ := recordMessage_ok_spec s c.1 c.2 false p.1 p.2 h
      intro m hm
      rw [hmsgs] at hm
      rcases List.mem_append.mp hm with h1 | h2
      · exact .inl h1
      · exact .inr (by simpa using h2)

theorem respInvariant_step (s : ThreadState) (c : PostInput × ℤ)
    (hdates : ∀ m ∈ s.msgs, m.date < c.2)
    (hinv : RespInvariant s) :
    RespInvariant (applyRecord s c) := by
  cases h : recordMessage s c.1 c.2 false with
  | error e => rw [applyRecord_err s c e h]; exact hinv
  | ok p =>
      rw [applyRecord_ok s c p h]
      obtain ⟨-, -, hmsgs, hth, -⟩ :=
        recordMessage_ok_spec s c.1 c.2 false p.1 p.2 h
      constructor
      · intro hempty
        rw [hmsgs] at hempty
        simp at hempty
      · intro lm hlm
        rw [hmsgs] at hlm
        have hlast : (s.msgs ++ [mkMessage c.1 c.2]).getLast? =
            some (mkMessage c.1 c.2) := by simp
        rw [hlast] at hlm
        obtain rfl : mkMessage c.1 c.2 = lm := by simpa using hlm
        refine ⟨_, hth, ?_⟩
        have hcalc : respondedCalc (s.msgs ++ [mkMessage c.1 c.2]) c.2 =
            respondedCase (mkMessage c.1 c.2).type (mkMessage c.1 c.2).date c.2 := by
          unfold respondedCalc
          rw [lastMessage_concat s.msgs (mkMessage c.1 c.2)
            (by intro x hx; exact hdates x hx)]
        simp only [updateThreadCalculations, hcalc, respondedCase_spec]

theorem runRecords_invariant (calls : List (PostInput × ℤ)) (s : ThreadState)
    (hmono : List.Pairwise (fun a b => a.2 < b.2) calls)
    (hbound : ∀ m ∈ s.msgs, ∀ c ∈ calls, m.date < c.2)
    (hinv : RespInvariant s) :
    RespInvariant (calls.foldl applyRecord s) := by
  induction calls generalizing s with
  | nil => exact hinv
  | cons c rest ih =>
      rw [List.foldl_cons]
      rcases List.pairwise_cons.mp hmono with ⟨hc, hrest⟩
      refine ih (applyRecord s c) hrest ?_ ?_
      · intro m hm c' hc'
        rcases applyRecord_msgs_sub s c m hm with hold | hnew
        · exact hbound m hold c' (List.mem_cons_of_mem c hc')
        · rw [hnew]
          exact hc c' hc'
      · exact respInvariant_step s c
          (fun m hm => hbound m hm c (List.mem_cons_self c rest)) hinv

/-! C1: the responded field over a sequence of writes. -/

/-- C1: over any sequence of write calls to the thread with strictly
increasing timestamps that leaves at least one message, the stored
responded field is Yes exactly when the chronologically last recorded
message is incoming, and an outgoing last message yields No no matter
how much time has elapsed: the shared CASE expression returns No at any
read time. -/
theorem responded_iff_last_incoming (calls : List (PostInput × ℤ))
    (hmono : List.Pairwise (fun a b => a.2 < b.2) calls)
    (lm : Message) (hlast : (runRecords calls).msgs.getLast? = some lm) :
    ∃ th, (runRecords calls).thread = some th ∧
      (th.responded = some "Yes" ↔ lm.type = "incoming") ∧
      (lm.type = "outgoing" → th.responded = some "No" ∧
        ∀ t : ℤ, respondedCase lm.type lm.date t = "No") := by
  have hinv : RespInvariant (runRecords calls) := by
    refine runRecords_invariant calls emptyState hmono ?_ ?_
    · intro m hm
      simp [emptyState] at hm
    · exact ⟨fun _ => rfl, fun lm h => by simp [emptyState] at h⟩
  obtain ⟨th, hth, hresp⟩ := hinv.2 lm hlast
  refine ⟨th, hth, ?_, ?_⟩
  · by_cases hty : (lm.type == "incoming") = true
    · rw [hty] at hresp
      exact iff_of_true (by simpa using hresp) (by simpa using hty)
    · simp only [Bool.not_eq_true] at hty
      rw [hty] at hresp
      refine iff_of_false ?_ ?_
      · simp only [Bool.false_eq_true, if_false] at hresp
        rw [hresp]
        simp
      · simpa using hty
  · intro hout
    have hty : (lm.type == "incoming") = false := by
      simp [hout]
    rw [hty] at hresp
    simp only [Bool.false_eq_true, if_false] at hresp
    refine ⟨hresp, fun t => ?_⟩
    rw [respondedCase_spec, hty]
    simp

theorem responded_iff_last_incoming_witness :
    ∃ th, (runRecords c1calls).thread = some th ∧
      (th.responded = some "Yes" ↔ (mkMessage outMsg 2).type = "incoming") ∧
      ((mkMessage outMsg 2).type = "outgoing" → th.responded = some "No" ∧
        ∀ t : ℤ, respondedCase (mkMessage outMsg 2).type
          (mkMessage outMsg 2).date t = "No") :=
  responded_iff_last_incoming c1calls (by decide) (mkMessage outMsg 2) (by rfl)

/-! C4: when the automatic dispatch fires along a sequence of writes. -/

/-- C4 counterexample: with three messages of each direction the sixth
write schedules the dispatch, and the seventh write schedules it again,
so the dispatch is not a one-time event at the first crossing of the
threshold. -/
theorem dispatch_refires_counterexample :
    (runTrace c4calls).2 = [false, false, false, false, false, true, true] := by
  rfl

/-- C4 amended: a successful write schedules the dispatch exactly when,
after the insert, the thread holds at least three outgoing and at least
three incoming messages; in particular once both counts have reached
three, every further successful write schedules the dispatch again.
There is no one-shot latch. -/
theorem dispatch_iff_thresholds (s : ThreadState) (i : PostInput) (now : ℤ)
    (s' : ThreadState) (d : Bool)
    (h : recordMessage s i now false = .ok (s', d)) :
    (d = true ↔ 3 ≤ countType s'.msgs "outgoing" ∧
      3 ≤ countType s'.msgs "incoming") ∧
    (3 ≤ countType s.msgs "outgoing" → 3 ≤ countType s.msgs "incoming" →
      d = true) := by
  obtain ⟨-, -, hmsgs, -, hd⟩ := recordMessage_ok_spec s i now false s' d h
  constructor
  · rw [hd, hmsgs]
    simp [decide_eq_true_iff]
  · intro h1 h2
    rw [hd]
    have o1 := countType_le_concat s.msgs (mkMessage i now) "outgoing"
    have o2 := countType_le_concat s.msgs (mkMessage i now) "incoming"
    simp only [Bool.and_eq_true, decide_eq_true_eq]
    omega

theorem dispatch_iff_thresholds_witness :
    (c4d7 = true ↔ 3 ≤ countType c4s7.msgs "outgoing" ∧
      3 ≤ countType c4s7.msgs "incoming") ∧
    (3 ≤ countType c4state6.msgs "outgoing" →
      3 ≤ countType c4state6.msgs "incoming" → c4d7 = true) :=
  dispatch_iff_thresholds c4state6 inMsg 7 c4s7 c4d7 (by rfl)

/-! C9: monotonicity of the converted flag. -/

theorem applyOp_converted (s : ThreadState) (th : Thread)
    (hs : s.thread = some th) (hc : th.converted = some "Yes") (op : Op) :
    ∃ th', (applyOp s op).thread = some th' ∧ th'.converted = some "Yes" := by
  cases op with
  | read => exact ⟨th, hs, hc⟩
  | write i now f =>
      cases h : recordMessage s i now f with
      | error e =>
          simp only [applyOp, h]
          exact ⟨th, hs, hc⟩
      | ok p =>
          obtain ⟨-, -, -, hth, -⟩ :=
            recordMessage_ok_spec s i now f p.1 p.2 h
          simp only [applyOp, h]
          refine ⟨_, hth, ?_⟩
          rw [hs]
          by_cases hn : normConverted i.converted = some "Yes" <;>
            simp [updateThreadCalculations, upsertThread, hn, hc]
  | score tid inp =>
      cases h : applyScores s tid inp with
      | error e =>
          simp only [applyOp, h]
          exact ⟨th, hs, hc⟩
      | ok s' =>
          simp only [applyOp, h]
          unfold applyScores at h
          by_cases h0 : (tid == "") = true
          · simp [h0] at h
          · simp only [h0, Bool.false_eq_true, if_false] at h
            by_cases h1 : scoresInvalid inp = true
            · simp [h1] at h
            · simp only [Bool.not_eq_true] at h1
              rw [h1] at h
              simp only [Bool.false_eq_true, if_false] at h
              by_cases hN : scoresNonInt inp = true
              · simp [hN] at h
              · simp only [Bool.not_eq_true] at hN
                rw [hN] at h
                simp only [Bool.false_eq_true, if_false, hs] at h
                by_cases h2 : (th.thread_id == tid) = true
                · rw [if_pos h2] at h
                  injection h with h3
                  subst h3
                  exact ⟨_, rfl, hc⟩
                · simp [h2] at h

/-- C9: the converted flag is monotonic: once a thread row carries
converted Yes, no later sequence of write calls (with any converted
value), score updates or reads ever changes it to any other value. -/
theorem converted_monotonic (s : ThreadState) (th : Thread)
    (hs : s.thread = some th) (hc : th.converted = some "Yes")
    (ops : List Op) :
    ∃ th', (runOps s ops).thread = some th' ∧ th'.converted = some "Yes" := by
  induction ops generalizing s th with
  | nil => exact ⟨th, hs, hc⟩
  | cons op rest ih =>
      obtain ⟨th', h1, h2⟩ := applyOp_converted s th hs hc op
      have : runOps s (op :: rest) = runOps (applyOp s op) rest := rfl
      rw [this]
      exact ih (applyOp s op) th' h1 h2

theorem converted_monotonic_witness :
    ∃ th', (runOps stateYes opsYes).thread = some th' ∧
      th'.converted = some "Yes" :=
  converted_monotonic stateYes threadYes (by rfl) (by rfl) opsYes

/-! Witnesses for the write-path theorems above. -/

theorem recordMessage_resets_ai_scores_witness :
    ∃ th, w5s.thread = some th ∧
      th.acknowledgment_score = none ∧
      th.affection_score = none ∧
      th.personalization_score = none :=
  recordMessage_resets_ai_scores emptyState inMsg 1 false w5s w5d (by rfl)

theorem recordMessage_preserves_manual_scores_witness :
    ∃ th', (applyRecord state50 (inMsg, 1)).thread = some th' ∧
      th'.sales_ability = thread50.sales_ability ∧
      th'.girl_roleplay_skill = thread50.girl_roleplay_skill ∧
      th'.acknowledgment_score = none ∧
      th'.affection_score = none ∧
      th'.personalization_score = none :=
  recordMessage_preserves_manual_scores state50 inMsg 1 false
    (applyRecord state50 (inMsg, 1)) (dispatchFlag state50 (inMsg, 1))
    thread50 (by rfl) (by rfl)

theorem recordMessage_error_iff_witness :
    applyOp emptyState (.write inMsg 0 true) = emptyState :=
  (recordMessage_error_iff emptyState inMsg 0 true).2
    (.serverError "Failed to create thread") (by rfl)

/-! Sorting and pairing helper lemmas. -/

theorem insertByDate_front (m : Message) (l : List Message)
    (h : ∀ x ∈ l, m.date < x.date) : insertByDate m l = m :: l := by
  cases l with
  | nil => rfl
  | cons a rest =>
      simp only [insertByDate]
      rw [if_pos (h a (by simp))]

theorem sortByDate_eq_self (l : List Message)
    (h : List.Pairwise (fun a b => a.date < b.date) l) : sortByDate l = l := by
  induction l with
  | nil => rfl
  | cons a rest ih =>
      rcases List.pairwise_cons.mp h with ⟨ha, hrest⟩
      simp only [sortByDate]
      rw [ih hrest, insertByDate_front a rest ha]

theorem pairwise_date_concat (l : List Message) (m : Message)
    (hl : List.Pairwise (fun a b => a.date < b.date) l)
    (h : ∀ x ∈ l, x.date < m.date) :
    List.Pairwise (fun a b => a.date < b.date) (l ++ [m]) := by
  rw [List.pairwise_append]
  refine ⟨hl, by simp, ?_⟩
  intro a ha b hb
  have : b = m := by simpa using hb
  rw [this]
  exact h a ha

theorem betweenIncoming_iff (msgs : List Message) (d1 d2 : ℤ) :
    betweenIncoming msgs d1 d2 = true ↔
      ∃ m3 ∈ msgs, m3.type = "incoming" ∧ d1 < m3.date ∧ m3.date < d2 := by
  simp [betweenIncoming, List.any_eq_true, Bool.and_eq_true, beq_iff_eq,
    decide_eq_true_eq, and_assoc]

theorem pairCond_iff (msgs : List Message) (m1 m2 : Message) :
    pairCond msgs m1 m2 = true ↔
      m1.type = "incoming" ∧ m2.type = "outgoing" ∧ m1.date < m2.date ∧
      ∀ m3 ∈ msgs, m3.type = "incoming" →
        ¬(m1.date < m3.date ∧ m3.date < m2.date) := by
  constructor
  · intro hp
    simp only [pairCond, Bool.and_eq_true, beq_iff_eq, decide_eq_true_eq,
      Bool.not_eq_true'] at hp
    obtain ⟨⟨⟨h1, h2⟩, h3⟩, h4⟩ := hp
    refine ⟨h1, h2, h3, ?_⟩
    intro m3 hm3 hty hbad
    have hb : betweenIncoming msgs m1.date m2.date = true :=
      (betweenIncoming_iff msgs m1.date m2.date).mpr
        ⟨m3, hm3, hty, hbad.1, hbad.2⟩
    rw [h4] at hb
    cases hb
  · rintro ⟨h1, h2, h3, h4⟩
    simp only [pairCond, Bool.and_eq_true, beq_iff_eq, decide_eq_true_eq,
      Bool.not_eq_true']
    refine ⟨⟨⟨h1, h2⟩, h3⟩, ?_⟩
    cases hb : betweenIncoming msgs m1.date m2.date with
    | false => rfl
    | true =>
        obtain ⟨m3, hm3, hty, hlt1, hlt2⟩ :=
          (betweenIncoming_iff msgs m1.date m2.date).mp hb
        exact absurd ⟨hlt1, hlt2⟩ (h4 m3 hm3 hty)

theorem mem_responseTimes (msgs : List Message) (r : ℤ) :
    r ∈ responseTimes msgs ↔
      ∃ m1 ∈ msgs, ∃ m2 ∈ msgs,
        m1.type = "incoming" ∧ m2.type = "outgoing" ∧ m1.date < m2.date ∧
        (∀ m3 ∈ msgs, m3.type = "incoming" →
          ¬(m1.date < m3.date ∧ m3.date < m2.date)) ∧
        r = m2.date - m1.date := by
  simp only [responseTimes, List.mem_flatMap, List.mem_filterMap]
  constructor
  · rintro ⟨m1, hm1, m2, hm2, hif⟩
    by_cases hc : pairCond msgs m1 m2 = true
    · rw [if_pos hc] at hif
      have hr : m2.date - m1.date = r := Option.some.inj hif
      obtain ⟨h1, h2, h3, h4⟩ := (pairCond_iff msgs m1 m2).mp hc
      exact ⟨m1, hm1, m2, hm2, h1, h2, h3, h4, hr.symm⟩
    · rw [if_neg hc] at hif
      cases hif
  · rintro ⟨m1, hm1, m2, hm2, h1, h2, h3, h4, rfl⟩
    refine ⟨m1, hm1, m2, hm2, ?_⟩
    rw [if_pos ((pairCond_iff msgs m1 m2).mpr ⟨h1, h2, h3, h4⟩)]

/-! C2: the stored average response time. -/

/-- C2 counterexample: an incoming message at time 0 followed by two
outgoing messages at times 10 and 20.  The stored average pairs the one
incoming message with both outgoing messages and yields 15, while the
claimed pairing discipline, in which each outgoing message is matched
with the nearest preceding unanswered incoming message so that each
message belongs to at most one pair, yields 10. -/
theorem avg_pairing_counterexample :
    (runRecords c2calls).thread.map Thread.avg_response_time =
      some (avgResponseTime (runRecords c2calls).msgs) ∧
    avgResponseTime (runRecords c2calls).msgs = some 15 ∧
    specAvgResponseTime (runRecords c2calls).msgs = some 10 ∧
    avgResponseTime (runRecords c2calls).msgs ≠
      specAvgResponseTime (runRecords c2calls).msgs := by
  have h1 : responseTimes (runRecords c2calls).msgs = [10, 20] := by rfl
  have h2 : specPairTimes (sortByDate (runRecords c2calls).msgs) [] = [10] := by
    rfl
  have e1 : avgResponseTime (runRecords c2calls).msgs = some 15 := by
    simp [avgResponseTime, h1]
    norm_num
  have e2 : specAvgResponseTime (runRecords c2calls).msgs = some 10 := by
    simp [specAvgResponseTime, h2]
  refine ⟨by rfl, e1, e2, ?_⟩
  rw [e1, e2]
  intro hcontra
  exact absurd (Option.some.inj hcontra) (by norm_num)

/-- C2 amended: after every successful write the stored
avg_response_time is the mean over the rows of the response_times
self-join, which holds one row for every pair of an incoming message m1
and a later outgoing message m2 with no incoming message strictly
between them; hence m1 is the latest incoming message preceding m2, but
one incoming message is paired with every consecutive outgoing message
following it, so a message may belong to more than one pair.
Recomputing the aggregate over the unchanged message set at any later
time yields the same value. -/
theorem recordMessage_avg_response_time (s : ThreadState) (i : PostInput)
    (now : ℤ) (s' : ThreadState) (d : Bool)
    (h : recordMessage s i now false = .ok (s', d)) :
    ∃ th, s'.thread = some th ∧
      th.avg_response_time = avgResponseTime s'.msgs ∧
      (∀ t : ℤ, (updateThreadCalculations th s'.msgs t).avg_response_time =
        th.avg_response_time) ∧
      ∀ r : ℤ, r ∈ responseTimes s'.msgs ↔
        ∃ m1 ∈ s'.msgs, ∃ m2 ∈ s'.msgs,
          m1.type = "incoming" ∧ m2.type = "outgoing" ∧ m1.date < m2.date ∧
          (∀ m3 ∈ s'.msgs, m3.type = "incoming" →
            ¬(m1.date < m3.date ∧ m3.date < m2.date)) ∧
          r = m2.date - m1.date := by
  obtain ⟨-, -, hmsgs, hth, -⟩ := recordMessage_ok_spec s i now false s' d h
  refine ⟨_, hth, ?_, ?_, fun r => mem_responseTimes s'.msgs r⟩
  · rw [hmsgs]
    rfl
  · intro t
    rw [hmsgs]
    rfl

theorem recordMessage_avg_response_time_witness :
    ∃ th, c2s2.thread = some th ∧
      th.avg_response_time = avgResponseTime c2s2.msgs ∧
      (∀ t : ℤ, (updateThreadCalculations th c2s2.msgs t).avg_response_time =
        th.avg_response_time) ∧
      ∀ r : ℤ, r ∈ responseTimes c2s2.msgs ↔
        ∃ m1 ∈ c2s2.msgs, ∃ m2 ∈ c2s2.msgs,
          m1.type = "incoming" ∧ m2.type = "outgoing" ∧ m1.date < m2.date ∧
          (∀ m3 ∈ c2s2.msgs, m3.type = "incoming" →
            ¬(m1.date < m3.date ∧ m3.date < m2.date)) ∧
          r = m2.date - m1.date :=
  recordMessage_avg_response_time c2state1 outMsg 10 c2s2 c2d2 (by rfl)

/-! C3: trigger condition and payload of the automatic dispatch. -/

/-- C3: after a successful write the automatic webhook dispatch is
scheduled exactly when the thread then holds at least three outgoing and
at least three incoming messages, and the delivered body is a
single-element array whose one payload carries the thread's summary
fields together with its full message history in chronological order. -/
theorem dispatch_trigger_and_payload (s : ThreadState) (i : PostInput)
    (now : ℤ) (s' : ThreadState) (d : Bool)
    (h : recordMessage s i now false = .ok (s', d))
    (hsorted : List.Pairwise (fun a b => a.date < b.date) s.msgs)
    (hlt : ∀ m ∈ s.msgs, m.date < now) :
    (d = true ↔ 3 ≤ countType s'.msgs "outgoing" ∧
      3 ≤ countType s'.msgs "incoming") ∧
    ∃ th, s'.thread = some th ∧
      sendThreadToWebhook s' = .ok [mkPayload th s'.msgs] := by
  obtain ⟨-, -, hmsgs, hth, hd⟩ := recordMessage_ok_spec s i now false s' d h
  constructor
  · rw [hd, hmsgs]
    simp [decide_eq_true_iff]
  · refine ⟨_, hth, ?_⟩
    have hpw : List.Pairwise (fun a b : Message => a.date < b.date) s'.msgs := by
      rw [hmsgs]
      exact pairwise_date_concat s.msgs (mkMessage i now) hsorted hlt
    simp only [sendThreadToWebhook, hth]
    rw [sortByDate_eq_self s'.msgs hpw]

theorem dispatch_trigger_and_payload_witness :
    ((c3d6 = true ↔ 3 ≤ countType c3s6.msgs "outgoing" ∧
      3 ≤ countType c3s6.msgs "incoming") ∧
    ∃ th, c3s6.thread = some th ∧
      sendThreadToWebhook c3s6 = .ok [mkPayload th c3s6.msgs]) :=
  dispatch_trigger_and_payload c3state5 outMsg 6 c3s6 c3d6 (by rfl)
    (by decide) (by decide)

/-! C7 and C8: the external score update endpoint. -/

theorem applyScores_ok_spec (s : ThreadState) (tid : String) (inp : ScoreInput)
    (s' : ThreadState) (h : applyScores s tid inp = .ok s') :
    scoresInvalid inp = false ∧ scoresNonInt inp = false ∧
      ∃ th, s.thread = some th ∧ th.thread_id = tid ∧
        s' = { s with thread := some { th with
          acknowledgment_score :=
            coalesceScore inp.acknowledgment_score th.acknowledgment_score
          affection_score :=
            coalesceScore inp.affection_score th.affection_score
          personalization_score :=
            coalesceScore inp.personalization_score th.personalization_score
          sales_ability := coalesceScore inp.sales_ability th.sales_ability
          girl_roleplay_skill :=
            coalesceScore inp.girl_roleplay_skill th.girl_roleplay_skill } } := by
  unfold applyScores at h
  by_cases h0 : (tid == "") = true
  · simp [h0] at h
  · simp only [h0, Bool.false_eq_true, if_false] at h
    by_cases h1 : scoresInvalid inp = true
    · simp [h1] at h
    · simp only [Bool.not_eq_true] at h1
      rw [h1] at h
      simp only [Bool.false_eq_true, if_false] at h
      by_cases hN : scoresNonInt inp = true
      · simp [hN] at h
      · simp only [Bool.not_eq_true] at hN
        rw [hN] at h
        simp only [Bool.false_eq_true, if_false] at h
        cases hs : s.thread with
        | none => simp [hs] at h
        | some th =>
            simp only [hs] at h
            by_cases h2 : (th.thread_id == tid) = true
            · rw [if_pos h2] at h
              injection h with h3
              exact ⟨h1, hN, th, rfl, by simpa using h2, h3.symm⟩
            · rw [if_neg h2] at h
              cases h

theorem coalesceScore_spec (v : Option ScoreVal) (old : Option ℤ) :
    ScoreFieldSpec v old (coalesceScore v old) := by
  constructor
  · intro q hq
    rw [hq]
    rfl
  · intro hv
    rcases hv with hv | hv <;> rw [hv] <;> rfl

/-- C7 counterexample: the score 85.5 (namely 171 divided by 2, a
rational with denominator 2 and so not an integer in 0..100) passes the
handler validation, but the UPDATE fails coercing it to the INTEGER
acknowledgment_score column, so the call on an existing thread fails
with a server error rather than the synchronous client rejection the
claim states; the state is unchanged. -/
theorem applyScores_non_integer_server_error :
    applyScores scoredState "t1" halfScore =
      .error (.serverError "invalid input syntax for type integer") ∧
    scoresInvalid halfScore = false ∧
    ((171 : ℚ) / 2).den = 2 ∧
    scoresStep scoredState "t1" halfScore = scoredState := by
  have hv : scoresInvalid halfScore = false := by
    simp only [scoresInvalid, halfScore, noScores, scoreInvalid]
    norm_num
  have hd : ((171 : ℚ) / 2).den = 2 := by norm_num
  have hn : scoresNonInt halfScore = true := by
    simp only [scoresNonInt, halfScore, noScores, scoreNonInt]
    simp [hd]
  have he : applyScores scoredState "t1" halfScore =
      .error (.serverError "invalid input syntax for type integer") := by
    simp [applyScores, hv, hn]
  exact ⟨he, hv, hd, by simp [scoresStep, he]⟩

/-- C7 amended: the score update fails exactly when the thread id is
missing, some provided score is neither null nor an integer between 0
and 100, or no thread row matches the id.  A provided non-number or a
number outside 0..100 is rejected synchronously with a client error,
while a non-integer number within 0..100 passes the handler validation
and fails at the INTEGER coercion of the UPDATE, surfacing as a server
error; on every failure the state is unchanged, since validation and
parameter coercion precede the update and a non-matching UPDATE touches
no row. -/
theorem applyScores_error_iff (s : ThreadState) (tid : String)
    (inp : ScoreInput) :
    (errB (applyScores s tid inp) = true ↔
      tid = "" ∨ scoresInvalid inp = true ∨ scoresNonInt inp = true ∨
        threadExists s tid = false) ∧
    (tid ≠ "" → scoresInvalid inp = true →
      applyScores s tid inp = .error (.badRequest "score out of range")) ∧
    (tid ≠ "" → scoresInvalid inp = false → scoresNonInt inp = true →
      applyScores s tid inp =
        .error (.serverError "invalid input syntax for type integer")) ∧
    (∀ e, applyScores s tid inp = .error e → scoresStep s tid inp = s) := by
  refine ⟨?_, ?_, ?_, ?_⟩
  · by_cases h0 : (tid == "") = true
    · have htid : tid = "" := by simpa using h0
      simp [applyScores, errB, h0, htid]
    · have htid : ¬tid = "" := by simpa using h0
      by_cases h1 : scoresInvalid inp = true
      · simp [applyScores, errB, h0, h1, htid]
      · simp only [Bool.not_eq_true] at h1
        by_cases hN : scoresNonInt inp = true
        · simp [applyScores, errB, h0, h1, hN, htid]
        · simp only [Bool.not_eq_true] at hN
          cases hs : s.thread with
          | none =>
              simp [applyScores, errB, h0, h1, hN, hs, threadExists, htid]
          | some th =>
              by_cases h2 : (th.thread_id == tid) = true
              · simp [applyScores, errB, h0, h1, hN, hs, threadExists, h2,
                  htid]
              · simp [applyScores, errB, h0, h1, hN, hs, threadExists, h2,
                  htid]
  · intro htid h1
    have h0 : (tid == "") = false := by simpa using htid
    simp [applyScores, h0, h1]
  · intro htid h1 hN
    have h0 : (tid == "") = false := by simpa using htid
    simp [applyScores, h0, h1, hN]
  · intro e he
    simp [scoresStep, he]

theorem applyScores_error_iff_witness :
    scoresStep scoredState "t2" noScores = scoredState :=
  (applyScores_error_iff scoredState "t2" noScores).2.2.2
    (.notFound "Thread not found") (by rfl)

/-- C8 counterexample: on a thread whose acknowledgment_score is 50, a
score update providing an explicit null for acknowledgment_score
succeeds and leaves the stored value at 50 because of the COALESCE,
though the claim requires a provided null to be stored. -/
theorem applyScores_null_keeps_prior :
    applyScores state50 "t1" nullAck = .ok state50 ∧
    thread50.acknowledgment_score = some 50 := by
  exact ⟨rfl, rfl⟩

/-- C8 amended: a successful score update keeps the message log and
every non-score field of the thread row, sets each score field provided
as a number to that number, and leaves a score field unchanged when it
is absent or provided as null; in particular an update providing only
acknowledgment_score 85 leaves the four other scores unchanged. -/
theorem applyScores_updates_only_provided (s : ThreadState) (tid : String)
    (inp : ScoreInput) (s' : ThreadState)
    (h : applyScores s tid inp = .ok s') :
    s'.msgs = s.msgs ∧
    ∃ th th', s.thread = some th ∧ s'.thread = some th' ∧
      th'.thread_id = th.thread_id ∧ th'.operator = th.operator ∧
      th'.model = th.model ∧ th'.converted = th.converted ∧
      th'.last_message = th.last_message ∧
      th'.avg_response_time = th.avg_response_time ∧
      th'.responded = th.responded ∧
      ScoreFieldSpec inp.acknowledgment_score th.acknowledgment_score
        th'.acknowledgment_score ∧
      ScoreFieldSpec inp.affection_score th.affection_score
        th'.affection_score ∧
      ScoreFieldSpec inp.personalization_score th.personalization_score
        th'.personalization_score ∧
      ScoreFieldSpec inp.sales_ability th.sales_ability th'.sales_ability ∧
      ScoreFieldSpec inp.girl_roleplay_skill th.girl_roleplay_skill
        th'.girl_roleplay_skill := by
  obtain ⟨-, -, th, hth, -, hs'⟩ := applyScores_ok_spec s tid inp s' h
  subst hs'
  exact ⟨rfl, th, _, hth, rfl, rfl, rfl, rfl, rfl, rfl, rfl, rfl,
    coalesceScore_spec _ _, coalesceScore_spec _ _, coalesceScore_spec _ _,
    coalesceScore_spec _ _, coalesceScore_spec _ _⟩

theorem applyScores_updates_only_provided_witness :
    (scoresStep state50 "t1" inp85).msgs = state50.msgs ∧
    ∃ th th', state50.thread = some th ∧
      (scoresStep state50 "t1" inp85).thread = some th' ∧
      th'.thread_id = th.thread_id ∧ th'.operator = th.operator ∧
      th'.model = th.model ∧ th'.converted = th.converted ∧
      th'.last_message = th.last_message ∧
      th'.avg_response_time = th.avg_response_time ∧
      th'.responded = th.responded ∧
      ScoreFieldSpec inp85.acknowledgment_score th.acknowledgment_score
        th'.acknowledgment_score ∧
      ScoreFieldSpec inp85.affection_score th.affection_score
        th'.affection_score ∧
      ScoreFieldSpec inp85.personalization_score th.personalization_score
        th'.personalization_score ∧
      ScoreFieldSpec inp85.sales_ability th.sales_ability
        th'.sales_ability ∧
      ScoreFieldSpec inp85.girl_roleplay_skill th.girl_roleplay_skill
        th'.girl_roleplay_skill :=
  applyScores_updates_only_provided state50 "t1" inp85
    (scoresStep state50 "t1" inp85) (by rfl)

end TrackingChatters
